import Mathlib

/-!
Verification of the `seanpm2001/feedback` demo-notebook repository.

The repository is a collection of Jupyter notebooks demonstrating features of
an external quantum SDK.  The notebooks' own Python code (class definitions,
concrete circuit constructions, the quoted warm-start fix) is embedded
directly; behaviour of the external framework that the notebooks merely call
is modelled from the specification and anchored against the outputs recorded
in the notebooks.
-/

/-! ## Python exceptions and warnings -/

/-- Python exceptions that the notebook code can produce. -/
inductive PyExc where
  | nameError (name : String)
  | indexError
  | typeError
  | qiskitError (msg : String)
  | notImplementedError (msg : String)
deriving DecidableEq, Repr

/-- A Python warning: a category (e.g. "DeprecationWarning") and a message. -/
structure PyWarning where
  category : String
  message : String
deriving DecidableEq, Repr

/-- Result of a call together with the warnings it emitted. -/
structure Emitted (α : Type) where
  warnings : List PyWarning
  result : α
deriving DecidableEq, Repr

/-! ## The deprecation-docs notebook (2022-09-29/3_deprecation_docs.ipynb) -/

/-- Modelled from the spec: `qiskit.utils.deprecation.deprecate_function`
(the decorator itself lives in the external framework; the spec says
deprecation warnings are "surfaced as warnings").  The wrapped callable emits
one `DeprecationWarning` carrying exactly the decorator's message and then
delegates to the wrapped function, returning its result unchanged. -/
def deprecate_function {α β : Type} (msg : String) (f : α → β) : α → Emitted β :=
  fun a => { warnings := [{ category := "DeprecationWarning", message := msg }], result := f a }

/-- The `DummyClass` of the deprecation notebook, restricted (as in the
notebook's own use `DummyClass(1, [1,2])`) to an integer `arg1` and a list
`arg2`. -/
structure DummyClass where
  arg1 : Int
  arg2 : List Int
deriving DecidableEq, Repr

/-- The global names bound in the deprecation notebook's namespace over the
course of the session: the two imported decorators, the class, the instance,
the helper function `f` and the later-imported `__version__`.  `QiskitError`
is never imported or defined. -/
def notebookGlobalNames : List String :=
  ["deprecate_function", "deprecate_arguments", "DummyClass", "d", "f", "__version__"]

/-- Python resolves the free name `QiskitError` in the notebook's global
namespace at call time: if the name is bound the raise produces a
`QiskitError`, otherwise the lookup itself raises `NameError`. -/
def raiseQiskitError (msg : String) : PyExc :=
  if "QiskitError" ∈ notebookGlobalNames then PyExc.qiskitError msg
  else PyExc.nameError "QiskitError"

/-- Python list indexing `l[i]`: negative indices count from the end, and an
out-of-range index raises `IndexError`. -/
def pyIndex (l : List Int) (i : Int) : Except PyExc Int :=
  let j : Int := if i < 0 then i + l.length else i
  if 0 ≤ j then
    match l[j.toNat]? with
    | some v => Except.ok v
    | none => Except.error PyExc.indexError
  else Except.error PyExc.indexError

/-- The message `deprecate_function` is given for `foo_deprecated` in the
notebook. -/
def fooMessage : String :=
  "The DummyClass.foo() method is being deprecated. Use the DummyClass.some_othermethod()"

/-- The undecorated body of `DummyClass.foo_deprecated`:
`if len(self.arg2) < index_arg2: raise QiskitError("there is an error")` and
otherwise `return self.arg2[index_arg2]`. -/
def foo_deprecated_body (d : DummyClass) (index_arg2 : Int) : Except PyExc Int :=
  if (d.arg2.length : Int) < index_arg2 then Except.error (raiseQiskitError "there is an error")
  else pyIndex d.arg2 index_arg2

/-- The method `DummyClass.foo_deprecated` as the notebook defines it: the
body wrapped by `deprecate_function fooMessage`. -/
def foo_deprecated (d : DummyClass) : Int → Emitted (Except PyExc Int) :=
  deprecate_function fooMessage (foo_deprecated_body d)

/-- Keyword arguments of `DummyClass.bar_with_deprecated_arg`; `none` stands
for a keyword that was not passed (Python default `None`). -/
structure BarKwargs where
  if_arg1 : Option Int
  index_arg2 : Option Int
  other_if_arg1 : Option Int
deriving DecidableEq, Repr

/-- The undecorated body of `bar_with_deprecated_arg`:
`if other_if_arg1 == self.arg1 or if_arg1 == self.arg1: return
self.arg2[index_arg2]` else `return None`.  Indexing with `None` is a
`TypeError` in Python. -/
def bar_body (d : DummyClass) (k : BarKwargs) : Except PyExc (Option Int) :=
  if k.other_if_arg1 = some d.arg1 ∨ k.if_arg1 = some d.arg1 then
    match k.index_arg2 with
    | some i => (pyIndex d.arg2 i).map some
    | none => Except.error PyExc.typeError
  else Except.ok none

/-- The warning the notebook records for a call using the deprecated keyword. -/
def barKwargWarning : PyWarning :=
  { category := "DeprecationWarning"
    message := "bar_with_deprecated_arg keyword argument if_arg1 is deprecated and replaced with other_if_arg1." }

/-- Modelled from the spec: `deprecate_arguments` with the renaming map from
`if_arg1` to `other_if_arg1`, applied to `bar_with_deprecated_arg` (the
decorator lives in the external framework).  When the call passes the deprecated keyword `if_arg1` it emits a
`DeprecationWarning` and forwards the value under the replacement keyword
`other_if_arg1`; when only the replacement keyword is used no warning is
emitted. -/
def bar_with_deprecated_arg (d : DummyClass) (k : BarKwargs) : Emitted (Except PyExc (Option Int)) :=
  if k.if_arg1.isSome then
    { warnings := [barKwargWarning]
      result := bar_body d { k with other_if_arg1 := k.if_arg1, if_arg1 := none } }
  else { warnings := [], result := bar_body d k }

/-- The instance constructed in the notebook: `d = DummyClass(1, [1,2])`. -/
def dInstance : DummyClass := { arg1 := 1, arg2 := [1, 2] }

/-! ## The singleton-gates notebook (2023-07-13/1_SingletonGatesDemoDay.ipynb) -/

/-- A gate object.  `objId` models Python object identity (the address used
by the `is` operator); `mutable` is the `Instruction.mutable` flag introduced
by the singleton-gate work. -/
structure GateInstance where
  objId : Nat
  label : Option String
  mutable : Bool
deriving DecidableEq, Repr

/-- Modelled from the spec: the single global shared `XGate` instance kept by
the `SingletonGate` machinery of the external framework.  It carries no label
and reports `mutable == False`. -/
def xGateSingleton : GateInstance := { objId := 0, label := none, mutable := false }

/-- The allocator state of the Python heap: `next` is the next unused object
identity.  The shared singleton occupies identity `0`, so every reachable
heap has `0 < next`. -/
structure Heap where
  next : Nat
deriving DecidableEq, Repr

/-- Allocate a fresh mutable gate object with the given label. -/
def allocGate (h : Heap) (label : Option String) : GateInstance × Heap :=
  ({ objId := h.next, label := label, mutable := true }, { next := h.next + 1 })

/-- Modelled from the spec: the `XGate` constructor of the external
framework's singleton-gate machinery.  With no arguments it returns the one
global shared instance (allocating nothing); with a `label` argument it
allocates a fresh, mutable, non-shared instance carrying that label. -/
def xGateNew (label : Option String) (h : Heap) : GateInstance × Heap :=
  match label with
  | none => (xGateSingleton, h)
  | some l => allocGate h (some l)

/-- Modelled from the spec: `Instruction.to_mutable` returns a fresh mutable
copy of the gate, never the shared instance. -/
def to_mutable (g : GateInstance) (h : Heap) : GateInstance × Heap :=
  allocGate h g.label

/-- Modelled from the spec: assigning `gate.label = ...`.  On an immutable
(shared singleton) instance the setter raises `NotImplementedError` and the
object is left unchanged; on a mutable instance it stores the label. -/
def setLabel (g : GateInstance) (l : String) : Except PyExc GateInstance :=
  if g.mutable then Except.ok { g with label := some l }
  else Except.error (PyExc.notImplementedError
    "This gate class does not support manually setting a label on an instance. Instead you must set the label when instantiating a new object.")

/-! ## The warm-start fix notebook (2022-03-17/2-fix-vqc-training-with-warm-start.ipynb) -/

/-- The result object of `Optimizer.minimize`; the final point of the
minimization is stored in the property `x`. -/
structure FitResult where
  x : List ℚ
deriving DecidableEq, Repr

/-- The state of a `TrainableModel` that `_choose_initial_point` reads and
writes: the `warm_start` flag, the previous fit result (if any), the current
initial point (if any) and the neural network's number of weights. -/
structure TrainableModel where
  warm_start : Bool
  fit_result : Option FitResult
  initial_point : Option (List ℚ)
  num_weights : Nat
deriving DecidableEq, Repr

/-- The fixed `TrainableModel._choose_initial_point` exactly as quoted in the
notebook:
if `self._warm_start and self._fit_result is not None` then
`self._initial_point = self._fit_result.x`; elif `self._initial_point is
None` then `self._initial_point = algorithm_globals.random.random(
self._neural_network.num_weights)`; finally `return self._initial_point`.
The framework's random source is passed in as `random`. -/
def _choose_initial_point (random : Nat → List ℚ) (m : TrainableModel) :
    Option (List ℚ) × TrainableModel :=
  match m.warm_start, m.fit_result with
  | true, some r =>
      let m' := { m with initial_point := some r.x }
      (m'.initial_point, m')
  | _, _ =>
      match m.initial_point with
      | none =>
          let m' := { m with initial_point := some (random m.num_weights) }
          (m'.initial_point, m')
      | some p => (some p, m)

/-! ## The evaluation-mode notebook (2021-09-30/2-evaluation_mode.ipynb) -/

/-- A square matrix as a function of its indices (dense representation). -/
abbrev Mat (n : Nat) (R : Type) := Fin n → Fin n → R

/-- A sparse matrix: a list of (row, column, value) entries. -/
abbrev SparseEntries (n : Nat) (R : Type) := List (Fin n × Fin n × R)

/-- The dense matrix represented by a list of sparse entries: the value at
(a, b) is the sum of the values of the entries stored at that position. -/
def sparseToMatrix {n : Nat} {R : Type} [CommRing R] [DecidableEq R]
    (s : SparseEntries n R) : Mat n R :=
  fun a b =>
    (s.filterMap fun e => if e.1 = a ∧ e.2.1 = b then some e.2.2 else none).sum

/-- All (row, column) positions of an n-by-n matrix. -/
def allPairs (n : Nat) : List (Fin n × Fin n) :=
  (List.finRange n).product (List.finRange n)

/-- The sparse representation of a dense matrix: one entry per nonzero
position. -/
def sparsify {n : Nat} {R : Type} [CommRing R] [DecidableEq R]
    (m : Mat n R) : SparseEntries n R :=
  (allPairs n).filterMap fun p =>
    if m p.1 p.2 = 0 then none else some (p.1, p.2, m p.1 p.2)

/-- Scale every stored value of a sparse matrix by a coefficient. -/
def scaleEntries {n : Nat} {R : Type} [CommRing R]
    (c : R) (s : SparseEntries n R) : SparseEntries n R :=
  s.map fun e => (e.1, e.2.1, c * e.2.2)

/-- Modelled from the spec: `DenseOperatorCollection.evaluate`.  Given the
signal values `c` it returns the dense matrix `sum_j c_j * G_j + drift`. -/
def denseCollectionEvaluate {n : Nat} {R : Type} [CommRing R]
    (operators : List (Mat n R)) (drift : Mat n R) (c : List R) : Mat n R :=
  ((c.zip operators).map fun p => fun a b => p.1 * p.2 a b).sum + drift

/-- Modelled from the spec: `SparseOperatorCollection.evaluate`.  The
collection stores each operator and the drift as sparse entries; evaluation
scales each operator's entries by its signal value and concatenates with the
drift entries. -/
def sparseCollectionEvaluate {n : Nat} {R : Type} [CommRing R]
    (sparseOps : List (SparseEntries n R)) (sparseDrift : SparseEntries n R)
    (c : List R) : SparseEntries n R :=
  ((c.zip sparseOps).map fun p => scaleEntries p.1 p.2).flatten ++ sparseDrift

/-- The evaluation mode of a model: dense or sparse. -/
inductive EvalMode where
  | dense
  | sparse
deriving DecidableEq, Repr

/-- A `HamiltonianModel`: a list of operators with their signal coefficients
(`signals t` gives the signal values at time `t`), a drift operator, and the
current evaluation mode. -/
structure HamiltonianModel (n : Nat) (R : Type) where
  operators : List (Mat n R)
  drift : Mat n R
  signals : R → List R
  mode : EvalMode

/-- `set_evaluation_mode` replaces only the evaluation mode (and hence which
`OperatorCollection` the model uses); all operator data is unchanged. -/
def set_evaluation_mode {n : Nat} {R : Type}
    (m : HamiltonianModel n R) (newMode : EvalMode) : HamiltonianModel n R :=
  { m with mode := newMode }

/-- Modelled from the spec: `HamiltonianModel.evaluate t`.  In dense mode the
dense collection evaluates directly; in sparse mode the sparse collection
(built by sparsifying the operators) evaluates to sparse entries, read back
here as the matrix they represent. -/
def HamiltonianModel.evaluate {n : Nat} {R : Type} [CommRing R] [DecidableEq R]
    (m : HamiltonianModel n R) (t : R) : Mat n R :=
  match m.mode with
  | EvalMode.dense => denseCollectionEvaluate m.operators m.drift (m.signals t)
  | EvalMode.sparse =>
      sparseToMatrix
        (sparseCollectionEvaluate (m.operators.map sparsify) (sparsify m.drift) (m.signals t))

/-! ## The for-loop unrolling notebook (src/unnamed/part_001) -/

/-- An angle expression appearing as an rx-gate parameter: an integer
constant, the loop parameter by name, or `(num*pi/den) * parameter` as in the
notebook's `rx(i * math.pi/4, 0)`.  `piFrac num den` is the constant
`num*pi/den` produced when such a parameter is substituted. -/
inductive Angle where
  | int (n : Int)
  | param (name : String)
  | piMulParam (num den : Int) (name : String)
  | piFrac (num den : Int)
deriving DecidableEq, Repr

/-- A circuit instruction: the gates used by the notebook (`rx`, `cx`,
`measure`), the `break_loop`/`continue_loop` control-flow operations with an
optional classical condition `c_if(clbit, value)`, and the `for_loop`
construct of `QuantumCircuit.for_loop(indexset, loop_parameter, body, qubits,
clbits)` with its index range, optional loop parameter name, body block and
the wire maps sending body wires to circuit wires. -/
inductive Instr where
  | rx (angle : Angle) (q : Nat)
  | cx (q1 q2 : Nat)
  | measureOp (q : Nat) (c : Nat)
  | breakLoop (cond : Option (Nat × Bool))
  | continueLoop (cond : Option (Nat × Bool))
  | forLoop (start stop step : Int) (pname : Option String) (body : List Instr)
      (qubits : List Nat) (clbits : List Nat)

/-- A quantum circuit: register sizes and the instruction list. -/
structure Circuit where
  numQubits : Nat
  numClbits : Nat
  instrs : List Instr

/-- Map a wire index through a wire map list (identity outside the map). -/
def applyWireMap (m : List Nat) (w : Nat) : Nat := m.getD w w

/-- Remap the qubit and clbit wires of one instruction through the given
maps (for a nested for-loop, its wire lists are composed with the maps). -/
def mapWires (qmap cmap : List Nat) : Instr → Instr
  | Instr.rx a q => Instr.rx a (applyWireMap qmap q)
  | Instr.cx a b => Instr.cx (applyWireMap qmap a) (applyWireMap qmap b)
  | Instr.measureOp q c => Instr.measureOp (applyWireMap qmap q) (applyWireMap cmap c)
  | Instr.breakLoop none => Instr.breakLoop none
  | Instr.breakLoop (some (c, v)) => Instr.breakLoop (some (applyWireMap cmap c, v))
  | Instr.continueLoop none => Instr.continueLoop none
  | Instr.continueLoop (some (c, v)) => Instr.continueLoop (some (applyWireMap cmap c, v))
  | Instr.forLoop st sp stp p b q c =>
      Instr.forLoop st sp stp p b (q.map (applyWireMap qmap)) (c.map (applyWireMap cmap))

/-- Substitute the integer value `v` for the parameter `name` in an angle. -/
def substAngle (name : String) (v : Int) : Angle → Angle
  | Angle.int n => Angle.int n
  | Angle.param p => if p = name then Angle.int v else Angle.param p
  | Angle.piMulParam num den p =>
      if p = name then Angle.piFrac (num * v) den else Angle.piMulParam num den p
  | Angle.piFrac num den => Angle.piFrac num den

mutual

/-- Substitute the integer value `v` for the parameter `name` in one
instruction; a nested for-loop that rebinds the same name shadows it. -/
def substInstr (name : String) (v : Int) : Instr → Instr
  | Instr.rx a q => Instr.rx (substAngle name v a) q
  | Instr.cx a b => Instr.cx a b
  | Instr.measureOp q c => Instr.measureOp q c
  | Instr.breakLoop cond => Instr.breakLoop cond
  | Instr.continueLoop cond => Instr.continueLoop cond
  | Instr.forLoop st sp stp p b q c =>
      if p = some name then Instr.forLoop st sp stp p b q c
      else Instr.forLoop st sp stp p (substBody name v b) q c

/-- Substitute in every instruction of a body block. -/
def substBody (name : String) (v : Int) : List Instr → List Instr
  | [] => []
  | i :: rest => substInstr name v i :: substBody name v rest

end

/-- The list of index values of a Python `range(start, stop, step)` with a
positive step. -/
def rangeList (start stop step : Int) : List Int :=
  if 0 < step then
    (List.range (((stop - start).toNat + (step.toNat - 1)) / step.toNat)).map
      fun k => start + step * k
  else []

/-- Whether an instruction is a `break_loop` or `continue_loop` operation. -/
def isBreakOrContinue : Instr → Bool
  | Instr.breakLoop _ => true
  | Instr.continueLoop _ => true
  | _ => false

/-- The qubit wires an instruction touches (for a for-loop, the wires of its
qubit map). -/
def instrQubits : Instr → List Nat
  | Instr.rx _ q => [q]
  | Instr.cx a b => [a, b]
  | Instr.measureOp q _ => [q]
  | Instr.breakLoop _ => []
  | Instr.continueLoop _ => []
  | Instr.forLoop _ _ _ _ _ q _ => q

/-- The classical wires an instruction touches. -/
def instrClbits : Instr → List Nat
  | Instr.rx _ _ => []
  | Instr.cx _ _ => []
  | Instr.measureOp _ c => [c]
  | Instr.breakLoop none => []
  | Instr.breakLoop (some (c, _)) => [c]
  | Instr.continueLoop none => []
  | Instr.continueLoop (some (c, _)) => [c]
  | Instr.forLoop _ _ _ _ _ _ c => c

/-- The circuit depth of a body block: the largest number of instructions
sharing one qubit wire. -/
def bodyDepth (body : List Instr) : Nat :=
  ((body.flatMap instrQubits).eraseDups.map
    fun w => (body.filter fun i => (instrQubits i).contains w).length).foldr max 0

/-- Modelled from the spec: the `UnrollForLoops` transpiler pass.  Each
top-level `for_loop` whose body is free of `break`/`continue` and whose fully
unrolled body would not exceed `max_target_depth` (when set) is replaced by
one copy of its body per index value, with the loop parameter substituted by
that value and the body wires mapped onto the loop's qubits and clbits; all
other operations (and skipped loops) are kept unchanged. -/
def unrollForLoops (max_target_depth : Option Nat) (c : Circuit) : Circuit :=
  { c with
    instrs := c.instrs.flatMap fun i =>
      match i with
      | Instr.forLoop start stop step pname body qmap cmap =>
          let idxs := rangeList start stop step
          if body.any isBreakOrContinue then [i]
          else if (match max_target_depth with
                   | some d => decide (d < idxs.length * bodyDepth body)
                   | none => false) then [i]
          else
            idxs.flatMap fun v =>
              (match pname with
               | some nm => substBody nm v body
               | none => body).map (mapWires qmap cmap)
      | other => [other] }

/-- Whether a circuit is free of for-loop constructs at the top level. -/
def noForLoop (c : Circuit) : Bool :=
  c.instrs.all fun i =>
    match i with
    | Instr.forLoop _ _ _ _ _ _ _ => false
    | _ => true

/-- The instructions of a circuit touching a given qubit wire, in order. -/
def wireOps (c : Circuit) (w : Nat) : List Instr :=
  c.instrs.filter fun i => (instrQubits i).contains w

/-- The instructions of a circuit touching a given classical wire, in order. -/
def clbitOps (c : Circuit) (w : Nat) : List Instr :=
  c.instrs.filter fun i => (instrClbits i).contains w

/-- The loop body of the demo circuit: `body.rx(loop_parameter, [0, 1, 2])`
with `loop_parameter = Parameter("foo")`. -/
def demoLoopBody : List Instr :=
  [Instr.rx (Angle.param "foo") 0, Instr.rx (Angle.param "foo") 1, Instr.rx (Angle.param "foo") 2]

/-- The demo circuit of the notebook: `QuantumRegister(5)`,
`ClassicalRegister(2)`, and
`circuit.for_loop(range(0, 10, 2), loop_parameter, body, [1, 2, 3], [1])`. -/
def demoCircuit : Circuit :=
  { numQubits := 5
    numClbits := 2
    instrs := [Instr.forLoop 0 10 2 (some "foo") demoLoopBody [1, 2, 3] [1]] }

/-- The unrolled circuit recorded in the notebook's OpenQASM 3 dump, which
lists the rx gates qubit-major: `rx(0) q[1]; rx(2) q[1]; ... rx(8) q[3]`. -/
def recordedUnrolledCircuit : Circuit :=
  { numQubits := 5
    numClbits := 2
    instrs :=
      [Instr.rx (Angle.int 0) 1, Instr.rx (Angle.int 2) 1, Instr.rx (Angle.int 4) 1,
       Instr.rx (Angle.int 6) 1, Instr.rx (Angle.int 8) 1,
       Instr.rx (Angle.int 0) 2, Instr.rx (Angle.int 2) 2, Instr.rx (Angle.int 4) 2,
       Instr.rx (Angle.int 6) 2, Instr.rx (Angle.int 8) 2,
       Instr.rx (Angle.int 0) 3, Instr.rx (Angle.int 2) 3, Instr.rx (Angle.int 4) 3,
       Instr.rx (Angle.int 6) 3, Instr.rx (Angle.int 8) 3] }

/-- The body of the notebook's break-containing loop:
`qc.rx(i * math.pi/4, 0); qc.cx(0, 1); qc.measure(0, 0);
qc.break_loop().c_if(0, True)`. -/
def breakLoopBody : List Instr :=
  [Instr.rx (Angle.piMulParam 1 4 "_loop_i_0") 0, Instr.cx 0 1, Instr.measureOp 0 0,
   Instr.breakLoop (some (0, true))]

/-- The notebook's second circuit: `QuantumCircuit(2, 1)` with
`with qc.for_loop(range(5)) as i:` and the break-containing body. -/
def breakCircuit : Circuit :=
  { numQubits := 2
    numClbits := 1
    instrs := [Instr.forLoop 0 5 1 (some "_loop_i_0") breakLoopBody [0, 1] [0]] }

/-- Two-space indentation repeated `k` times, as in the recorded dumps. -/
def indentStr (k : Nat) : String := String.join (List.replicate k "  ")

/-- Render an angle expression as OpenQASM 3 text. -/
def angleText : Angle → String
  | Angle.int n => toString n
  | Angle.param p => p
  | Angle.piMulParam num den p =>
      (if num = 1 then "pi" else "pi*" ++ toString num) ++ "/" ++ toString den ++ "*" ++ p
  | Angle.piFrac num den => "pi*" ++ toString num ++ "/" ++ toString den

/-- Render a `range(start, stop, step)` indexset as an OpenQASM 3 interval:
the inclusive end is `stop - 1` and a unit step is omitted, so
`range(0, 10, 2)` renders as `[0:2:9]` and `range(5)` as `[0:4]`. -/
def rangeText (start stop step : Int) : String :=
  if step = 1 then "[" ++ toString start ++ ":" ++ toString (stop - 1) ++ "]"
  else "[" ++ toString start ++ ":" ++ toString step ++ ":" ++ toString (stop - 1) ++ "]"

mutual

/-- Modelled from the spec: rendering of a single instruction by
`qiskit.qasm3.dumps`, as recorded in the notebook's dumps.  `qm` and `cm`
translate the instruction's wire indices to the enclosing circuit's wires. -/
def dumpInstr (ind : Nat) (qm cm : Nat → Nat) : Instr → List String
  | Instr.rx a q =>
      [indentStr ind ++ "rx(" ++ angleText a ++ ") q[" ++ toString (qm q) ++ "];"]
  | Instr.cx a b =>
      [indentStr ind ++ "cx q[" ++ toString (qm a) ++ "], q[" ++ toString (qm b) ++ "];"]
  | Instr.measureOp q c =>
      [indentStr ind ++ "c[" ++ toString (cm c) ++ "] = measure q[" ++ toString (qm q) ++ "];"]
  | Instr.breakLoop none => [indentStr ind ++ "break;"]
  | Instr.breakLoop (some (c, v)) =>
      [indentStr ind ++ "if (c[" ++ toString (cm c) ++ "] == " ++ (if v then "1" else "0") ++ ") \x7b",
       indentStr (ind + 1) ++ "break;",
       indentStr ind ++ "\x7d"]
  | Instr.continueLoop none => [indentStr ind ++ "continue;"]
  | Instr.continueLoop (some (c, v)) =>
      [indentStr ind ++ "if (c[" ++ toString (cm c) ++ "] == " ++ (if v then "1" else "0") ++ ") \x7b",
       indentStr (ind + 1) ++ "continue;",
       indentStr ind ++ "\x7d"]
  | Instr.forLoop st sp stp p body q c =>
      (indentStr ind ++ "for " ++ p.getD "_" ++ " in " ++ rangeText st sp stp ++ " \x7b")
        :: dumpBlock (ind + 1) (fun w => qm (applyWireMap q w)) (fun w => cm (applyWireMap c w)) body
        ++ [indentStr ind ++ "\x7d"]

/-- Render a block of instructions line by line. -/
def dumpBlock (ind : Nat) (qm cm : Nat → Nat) : List Instr → List String
  | [] => []
  | i :: rest => dumpInstr ind qm cm i ++ dumpBlock ind qm cm rest

end

/-- Modelled from the spec: `qiskit.qasm3.dumps`, the OpenQASM 3 text dump of
a circuit, following the layout recorded in the notebook: version header,
standard-gates include, the `bit[...] c` declaration, the `qubit[...]
_all_qubits` declaration with the register alias, then the instructions. -/
def dumpLines (c : Circuit) : List String :=
  ["OPENQASM 3;",
   "include \"stdgates.inc\";",
   "bit[" ++ toString c.numClbits ++ "] c;",
   "qubit[" ++ toString c.numQubits ++ "] _all_qubits;",
   "let q = _all_qubits[0:" ++ toString (c.numQubits - 1) ++ "];"]
    ++ dumpBlock 0 id id c.instrs

/-- The dump is the lines joined by newlines, with a trailing newline. -/
def dumps (c : Circuit) : String :=
  String.intercalate "\n" (dumpLines c) ++ "\n"

/-- The OpenQASM 3 dump of the demo circuit as recorded in the notebook. -/
def recordedDemoDump : String :=
  "OPENQASM 3;\ninclude \"stdgates.inc\";\nbit[2] c;\nqubit[5] _all_qubits;\nlet q = _all_qubits[0:4];\nfor foo in [0:2:9] \x7b\n  rx(foo) q[1];\n  rx(foo) q[2];\n  rx(foo) q[3];\n\x7d\n"

/-- The recorded dump with its first line removed: everything after the
leading "OPENQASM 3;" line. -/
def recordedDemoDumpRest : String :=
  "include \"stdgates.inc\";\nbit[2] c;\nqubit[5] _all_qubits;\nlet q = _all_qubits[0:4];\nfor foo in [0:2:9] \x7b\n  rx(foo) q[1];\n  rx(foo) q[2];\n  rx(foo) q[3];\n\x7d\n"

/-- A concrete random source for witnesses: the all-zero vector of the
requested length. -/
def witnessRandom : Nat → List ℚ := fun k => List.replicate k 0

/-- A concrete warm-started model that already has a fit result. -/
def warmModel : TrainableModel :=
  { warm_start := true, fit_result := some { x := [1, 2] }, initial_point := none, num_weights := 2 }

/-! ## Helper lemmas: sparse matrices represent dense matrices -/

theorem filterMap_scaleEntries {n : Nat} {R : Type} [CommRing R] [DecidableEq R]
    (c : R) (s : SparseEntries n R) (a b : Fin n) :
    (scaleEntries c s).filterMap (fun e => if e.1 = a ∧ e.2.1 = b then some e.2.2 else none)
      = (s.filterMap (fun e => if e.1 = a ∧ e.2.1 = b then some e.2.2 else none)).map
          (fun v => c * v) := by
  induction s with
  | nil => rfl
  | cons e s ih =>
      by_cases hc : e.1 = a ∧ e.2.1 = b <;>
        simp [scaleEntries, List.filterMap_cons, hc, ih] at ih ⊢ <;> simp [ih]

theorem sum_map_mul {R : Type} [CommRing R] (c : R) (l : List R) :
    (l.map fun v => c * v).sum = c * l.sum := by
  induction l with
  | nil => simp
  | cons x l ih => simp [ih, mul_add]

theorem sparseToMatrix_scaleEntries {n : Nat} {R : Type} [CommRing R] [DecidableEq R]
    (c : R) (s : SparseEntries n R) (a b : Fin n) :
    sparseToMatrix (scaleEntries c s) a b = c * sparseToMatrix s a b := by
  show ((scaleEntries c s).filterMap _).sum = _
  rw [filterMap_scaleEntries, sum_map_mul]
  rfl

theorem sparseToMatrix_append {n : Nat} {R : Type} [CommRing R] [DecidableEq R]
    (s t : SparseEntries n R) :
    sparseToMatrix (s ++ t) = sparseToMatrix s + sparseToMatrix t := by
  funext a b
  simp [sparseToMatrix, List.filterMap_append, Pi.add_apply]

theorem sum_filterMap_single {α R : Type} [CommRing R] (l : List α) (hnd : l.Nodup)
    (x : α) (hx : x ∈ l) (h : α → Option R) (hz : ∀ y ∈ l, y ≠ x → h y = none) :
    (l.filterMap h).sum = (h x).getD 0 := by
  induction l with
  | nil => cases hx
  | cons a l ih =>
      rcases List.mem_cons.mp hx with rfl | hxl
      · have hrest : l.filterMap h = [] := by
          refine List.filterMap_eq_nil_iff.mpr fun y hy => ?_
          refine hz y (List.mem_cons_of_mem _ hy) fun hyx => ?_
          exact (List.nodup_cons.mp hnd).1 (hyx ▸ hy)
        cases hha : h x <;> simp [List.filterMap_cons, hha, hrest]
      · have hax : a ≠ x := fun hax => (List.nodup_cons.mp hnd).1 (hax ▸ hxl)
        have haz : h a = none := hz a (List.mem_cons_self a l) hax
        have ih' := ih (List.nodup_cons.mp hnd).2 hxl
          (fun y hy hyx => hz y (List.mem_cons_of_mem _ hy) hyx)
        simp [List.filterMap_cons, haz, ih']

theorem sparseToMatrix_sparsify {n : Nat} {R : Type} [CommRing R] [DecidableEq R]
    (m : Mat n R) : sparseToMatrix (sparsify m) = m := by
  funext a b
  show ((sparsify m).filterMap _).sum = m a b
  rw [sparsify, List.filterMap_filterMap]
  rw [sum_filterMap_single (allPairs n)
      ((List.nodup_finRange n).product (List.nodup_finRange n)) (a, b)
      (List.mem_product.mpr ⟨List.mem_finRange a, List.mem_finRange b⟩) _
      (fun y hy hyx => ?_)]
  · by_cases hz : m a b = 0 <;> simp [hz]
  · by_cases hz : m y.1 y.2 = 0
    · simp [hz]
    · have : ¬(y.1 = a ∧ y.2 = b) := fun hc => hyx (Prod.ext hc.1 hc.2)
      simp [hz, this]

theorem sparseToMatrix_flatten_scale {n : Nat} {R : Type} [CommRing R] [DecidableEq R]
    (l : List (R × Mat n R)) :
    sparseToMatrix ((l.map fun p => scaleEntries p.1 (sparsify p.2)).flatten)
      = (l.map fun p => fun a b => p.1 * p.2 a b).sum := by
  induction l with
  | nil =>
      funext a b
      simp [sparseToMatrix]
  | cons p l ih =>
      simp only [List.map_cons, List.flatten_cons, List.sum_cons]
      rw [sparseToMatrix_append, ih]
      congr 1
      funext a b
      rw [sparseToMatrix_scaleEntries, sparseToMatrix_sparsify]

/-- The refinement at the collection level: the sparse operator collection
built by sparsifying the operators evaluates, read back as a matrix, to
exactly what the dense collection evaluates to. -/
theorem sparseCollection_eq_dense {n : Nat} {R : Type} [CommRing R] [DecidableEq R]
    (ops : List (Mat n R)) (drift : Mat n R) (c : List R) :
    sparseToMatrix (sparseCollectionEvaluate (ops.map sparsify) (sparsify drift) c)
      = denseCollectionEvaluate ops drift c := by
  unfold sparseCollectionEvaluate denseCollectionEvaluate
  rw [List.zip_map_right, sparseToMatrix_append, sparseToMatrix_sparsify]
  congr 1
  have hmaps : ((c.zip ops).map (Prod.map id sparsify)).map (fun p => scaleEntries p.1 p.2)
      = (c.zip ops).map fun p => scaleEntries p.1 (sparsify p.2) := by
    rw [List.map_map]
    rfl
  rw [hmaps, sparseToMatrix_flatten_scale]

/-! ## The claims -/

/-- C1: on the demo circuit (QuantumRegister(5), ClassicalRegister(2), one
for_loop over range(0, 10, 2) with parameter foo whose body applies rx(foo)
to body wires mapped to q1, q2, q3), `UnrollForLoops` returns a circuit
equivalent to executing the body once per index value with the parameter
substituted: each of q1, q2, q3 carries exactly the gate sequence rx(0),
rx(2), rx(4), rx(6), rx(8) (wire by wire this agrees with the circuit
recorded in the notebook's dump), no for-loop construct remains, and the
unused wires q0, q4 and both classical bits are untouched. -/
theorem unrollForLoops_demoCircuit_spec :
    noForLoop (unrollForLoops none demoCircuit) = true
  ∧ wireOps (unrollForLoops none demoCircuit) 1 =
      [Instr.rx (Angle.int 0) 1, Instr.rx (Angle.int 2) 1, Instr.rx (Angle.int 4) 1,
       Instr.rx (Angle.int 6) 1, Instr.rx (Angle.int 8) 1]
  ∧ wireOps (unrollForLoops none demoCircuit) 2 =
      [Instr.rx (Angle.int 0) 2, Instr.rx (Angle.int 2) 2, Instr.rx (Angle.int 4) 2,
       Instr.rx (Angle.int 6) 2, Instr.rx (Angle.int 8) 2]
  ∧ wireOps (unrollForLoops none demoCircuit) 3 =
      [Instr.rx (Angle.int 0) 3, Instr.rx (Angle.int 2) 3, Instr.rx (Angle.int 4) 3,
       Instr.rx (Angle.int 6) 3, Instr.rx (Angle.int 8) 3]
  ∧ wireOps (unrollForLoops none demoCircuit) 0 = []
  ∧ wireOps (unrollForLoops none demoCircuit) 4 = []
  ∧ clbitOps (unrollForLoops none demoCircuit) 0 = []
  ∧ clbitOps (unrollForLoops none demoCircuit) 1 = []
  ∧ wireOps (unrollForLoops none demoCircuit) 0 = wireOps recordedUnrolledCircuit 0
  ∧ wireOps (unrollForLoops none demoCircuit) 1 = wireOps recordedUnrolledCircuit 1
  ∧ wireOps (unrollForLoops none demoCircuit) 2 = wireOps recordedUnrolledCircuit 2
  ∧ wireOps (unrollForLoops none demoCircuit) 3 = wireOps recordedUnrolledCircuit 3
  ∧ wireOps (unrollForLoops none demoCircuit) 4 = wireOps recordedUnrolledCircuit 4
  ∧ (unrollForLoops none demoCircuit).numQubits = demoCircuit.numQubits
  ∧ (unrollForLoops none demoCircuit).numClbits = demoCircuit.numClbits :=
  ⟨rfl, rfl, rfl, rfl, rfl, rfl, rfl, rfl, rfl, rfl, rfl, rfl, rfl, rfl, rfl⟩

/-- C2: every no-argument `XGate()` construction returns the one shared
singleton instance (the same object regardless of the heap state, allocating
nothing), and the shared instance reports `mutable == False`. -/
theorem xGate_singleton_identity (h1 h2 : Heap) :
    (xGateNew none h1).1 = (xGateNew none h2).1
  ∧ (xGateNew none h1).1.objId = (xGateNew none h2).1.objId
  ∧ (xGateNew none h1).1 = xGateSingleton
  ∧ (xGateNew none h1).2 = h1
  ∧ xGateSingleton.mutable = false :=
  ⟨rfl, rfl, rfl, rfl, rfl⟩

/-- C3: after the warm-start fix, `_choose_initial_point` uses the previous
fit result's final point `x` when warm-starting, falls back to a random
vector of length `num_weights` when no initial point is set, and in every
case returns the chosen point (which is also stored in the model). -/
theorem choose_initial_point_spec (random : Nat → List ℚ)
    (hr : ∀ k, (random k).length = k) (m : TrainableModel) :
    (∀ r, m.warm_start = true → m.fit_result = some r →
        _choose_initial_point random m = (some r.x, { m with initial_point := some r.x }))
  ∧ ((m.warm_start = false ∨ m.fit_result = none) → m.initial_point = none →
        _choose_initial_point random m =
          (some (random m.num_weights), { m with initial_point := some (random m.num_weights) })
        ∧ (random m.num_weights).length = m.num_weights)
  ∧ (_choose_initial_point random m).1 = (_choose_initial_point random m).2.initial_point
  ∧ (_choose_initial_point random m).1.isSome = true := by
  obtain ⟨ws, fr, ip, nw⟩ := m
  cases ws <;> cases fr <;> cases ip <;>
    simp [_choose_initial_point, hr]

/-- Witness for C3: with the all-zero random source and a warm-started model
holding a previous fit result with final point [1, 2], the next fit's
initial point is exactly [1, 2]. -/
theorem choose_initial_point_spec_witness :
    (∀ k, (witnessRandom k).length = k)
  ∧ _choose_initial_point witnessRandom warmModel =
      (some [1, 2], { warmModel with initial_point := some [1, 2] }) := by
  have hr : ∀ k, (witnessRandom k).length = k := by
    intro k
    simp [witnessRandom]
  exact ⟨hr, (choose_initial_point_spec witnessRandom hr warmModel).1 { x := [1, 2] } rfl rfl⟩

/-- C4: `d.foo_deprecated(0)` emits one DeprecationWarning carrying exactly
the decorator's message and returns the wrapped body's result unchanged,
namely `d.arg2[0] == 1`; `bar_with_deprecated_arg` emits a
DeprecationWarning when called with the deprecated keyword `if_arg1` and no
warning when called with the replacement keyword `other_if_arg1`. -/
theorem deprecation_decorators_spec :
    (foo_deprecated dInstance 0).warnings =
      [{ category := "DeprecationWarning", message := fooMessage }]
  ∧ (foo_deprecated dInstance 0).result = Except.ok 1
  ∧ dInstance.arg2[0]? = some 1
  ∧ (bar_with_deprecated_arg dInstance
      { if_arg1 := some 0, index_arg2 := none, other_if_arg1 := none }).warnings =
        [barKwargWarning]
  ∧ barKwargWarning.category = "DeprecationWarning"
  ∧ (bar_with_deprecated_arg dInstance
      { if_arg1 := none, index_arg2 := none, other_if_arg1 := some 0 }).warnings = [] :=
  ⟨rfl, rfl, rfl, rfl, rfl, rfl⟩

/-- C5 (code bug): on the branch the claim and the method's own docstring
describe as raising QiskitError (here `len(arg2) = 2 < 3 = index_arg2`), the
notebook's code actually raises `NameError`, because the name `QiskitError`
is never imported into the notebook's namespace. -/
theorem foo_deprecated_raises_nameError :
    "QiskitError" ∉ notebookGlobalNames
  ∧ (dInstance.arg2.length : Int) < 3
  ∧ (foo_deprecated dInstance 3).result = Except.error (PyExc.nameError "QiskitError") := by
  exact ⟨by decide, by decide, rfl⟩

/-- C6: switching the evaluation mode with `set_evaluation_mode` never
changes the value of `model.evaluate(t)`: the dense and sparse operator
collections evaluate to the same matrix entries. -/
theorem evaluate_mode_independent (n : Nat) (m : HamiltonianModel n ℚ)
    (newMode : EvalMode) (t : ℚ) :
    (set_evaluation_mode m newMode).evaluate t = m.evaluate t := by
  cases newMode <;> cases hm : m.mode <;>
    simp [HamiltonianModel.evaluate, set_evaluation_mode, hm, sparseCollection_eq_dense]

/-- C7: `UnrollForLoops` returns the circuit unchanged (hence an identical
OpenQASM 3 serialization) when the loop body contains a break operation, and
when `max_target_depth = 4` is exceeded by the fully unrolled body of the
5-iteration demo loop. -/
theorem unrollForLoops_skip_cases :
    unrollForLoops none breakCircuit = breakCircuit
  ∧ dumps (unrollForLoops none breakCircuit) = dumps breakCircuit
  ∧ unrollForLoops (some 4) demoCircuit = demoCircuit
  ∧ dumps (unrollForLoops (some 4) demoCircuit) = dumps demoCircuit
  ∧ breakLoopBody.any isBreakOrContinue = true
  ∧ (rangeList 0 10 2).length * bodyDepth demoLoopBody = 5 :=
  ⟨rfl, rfl, rfl, rfl, rfl, rfl⟩

/-- C8: assigning a label on the shared singleton `XGate()` raises
`NotImplementedError` (the singleton keeps no label), while `XGate(label=...)`
and `XGate().to_mutable()` each return a distinct non-shared instance on
which the label can be set and read back. -/
theorem singleton_label_spec (h : Heap) (hh : 0 < h.next) (l l' : String) :
    setLabel xGateSingleton l = Except.error (PyExc.notImplementedError
      "This gate class does not support manually setting a label on an instance. Instead you must set the label when instantiating a new object.")
  ∧ xGateSingleton.label = none
  ∧ (xGateNew (some l) h).1.objId ≠ xGateSingleton.objId
  ∧ (xGateNew (some l) h).1.label = some l
  ∧ (to_mutable xGateSingleton h).1.objId ≠ xGateSingleton.objId
  ∧ setLabel (to_mutable xGateSingleton h).1 l' =
      Except.ok { objId := h.next, label := some l', mutable := true }
  ∧ ({ objId := h.next, label := some l', mutable := true } : GateInstance).label = some l' := by
  refine ⟨rfl, rfl, ?_, rfl, ?_, rfl, rfl⟩ <;>
    simp [xGateNew, allocGate, to_mutable, xGateSingleton] <;> omega

/-- Witness for C8: in the initial heap (only the singleton allocated), the
labelled construction returns an instance distinct from the singleton. -/
theorem singleton_label_spec_witness :
    0 < (Heap.mk 1).next
  ∧ (xGateNew (some "My Extra Special XGate made with secret sauce") (Heap.mk 1)).1.objId ≠
      xGateSingleton.objId := by
  refine ⟨by decide, ?_⟩
  exact (singleton_label_spec (Heap.mk 1) (by decide)
    "My Extra Special XGate made with secret sauce" "tag").2.2.1

/-- C9: the OpenQASM 3 dump of the demo circuit is exactly the recorded
text: it begins with the line "OPENQASM 3;", declares the classical register
as bit[2] c, renders the for_loop over range(0, 10, 2) as the header
"for foo in [0:2:9]", and its body applies rx(foo) to q[1], q[2], q[3]. -/
theorem dumps_demoCircuit_spec :
    dumps demoCircuit = recordedDemoDump
  ∧ dumps demoCircuit = "OPENQASM 3;\n" ++ recordedDemoDumpRest
  ∧ (dumpLines demoCircuit).head? = some "OPENQASM 3;"
  ∧ (dumpLines demoCircuit).contains "bit[2] c;" = true
  ∧ (dumpLines demoCircuit).contains ("for foo in [0:2:9] \x7b") = true
  ∧ (dumpLines demoCircuit).contains "  rx(foo) q[1];" = true
  ∧ (dumpLines demoCircuit).contains "  rx(foo) q[2];" = true
  ∧ (dumpLines demoCircuit).contains "  rx(foo) q[3];" = true :=
  ⟨rfl, rfl, rfl, rfl, rfl, rfl, rfl, rfl⟩
